import Mathlib

/-!
# nodeSet.h : 2-D matrices and their staging on the GPU

A shallow embedding of `src/nodeSet.h` (`print2DMat`, `pprint2DMat`, `vecToMat2D`,
`cudaMSend2D`) and the properties proved about it.

Modelling conventions, stated once:

* A C `int` has 32 bits. Its values are the `Int`s from `-2147483648` to `INT_MAX`, and
  an `int` product or sum of the source (`i*f_cols + j`, `rows*columns`) is the
  mathematical result wrapped into this range (`intMul`, `intAdd`), which is what the
  compiled code computes. A loop counter runs from `0` up to its bound, itself an `int`, so
  `++i` never leaves the range.
* A `size_t` has 64 bits. `rows*columns * sizeof(float)` converts the `int` product to
  `size_t` (`toSizeT`) and multiplies modulo `2^64` (`sizeMul`).
* A C `float` is an element of a type parameter `α`: the source only moves floats around
  and hands them to `printf`, it never computes with them.
* A `float*` that points into host memory is a `FloatBuf`: the block it designates, and
  what a read outside that block finds.
* A local variable declared without an initialiser (`Mat2D out;`, `Mat2D d_M;`) starts
  from an indeterminate value, which the model takes as an argument.
* `malloc`, `cudaMalloc`, `cudaMemcpy` and `cudaGetErrorString` are library code. `malloc`
  is modelled as succeeding for every request an address space can hold (up to
  `PTRDIFF_MAX` bytes) and as returning the null pointer above; the CUDA runtime is an
  argument (`CudaRuntime`).
* `printf` appends to the standard output, modelled as the list of the `printf` calls
  made so far; `stdoutText` is the text they produce.
-/

namespace NodeSet

/-! ## Data model -/

/-- The value `INT_MAX` of a 32-bit `int`. -/
def INT_MAX : Int := 2147483647

/-- The `int` that a computation with the mathematical result `x` leaves: `x` itself
between `-2147483648` and `INT_MAX`, and `x` wrapped around modulo `2^32` outside. -/
def wrapInt (x : Int) : Int :=
  (x + 2147483648) % 4294967296 - 2147483648

/-- The product `a * b` of two `int`s. -/
def intMul (a b : Int) : Int :=
  wrapInt (a * b)

/-- The sum `a + b` of two `int`s. -/
def intAdd (a b : Int) : Int :=
  wrapInt (a + b)

/-- The conversion of an `int` to `size_t`: modulo `2^64`. -/
def toSizeT (x : Int) : Nat :=
  (x % 18446744073709551616).toNat

/-- The product `a * b` of two `size_t`s: modulo `2^64`. -/
def sizeMul (a b : Nat) : Nat :=
  (a * b) % 18446744073709551616

/-- The value of `sizeof(float)`, a `size_t`. -/
def sizeofFloat : Nat := 4

/-- The value `PTRDIFF_MAX`: no object of the address space has more bytes. -/
def PTRDIFF_MAX : Nat := 9223372036854775807

/-- A `struct Mat2D *`: an address, `0` being the null pointer. -/
abbrev MatPtr := Nat

/-- The null pointer. -/
def NULL : MatPtr := 0

/-- A `float*` into host memory: `block` holds the floats of the block the pointer
designates (slot `k` of the block is `p[k]`), `beyond` is what lies at the indices
outside the block. -/
structure FloatBuf (α : Type) where
  block : List α
  beyond : Int → α

/-- The read `p[k]`, `k` an `int`. -/
def FloatBuf.read {α : Type} (p : FloatBuf α) (k : Int) : α :=
  if 0 ≤ k then (p.block[k.toNat]?).getD (p.beyond k) else p.beyond k

/-- The assignment `p[k] = v`, `k` an `int`. -/
def FloatBuf.write {α : Type} (p : FloatBuf α) (k : Int) (v : α) : FloatBuf α :=
  if 0 ≤ k ∧ k.toNat < p.block.length then
    { p with block := p.block.set k.toNat v }
  else
    { p with beyond := fun x => if x = k then v else p.beyond x }

/-- The `struct Mat2D` of the source (row then column). `C` is what the `float* cells`
field designates: a `FloatBuf` for a matrix in host memory, a device address for the
matrix `cudaMSend2D` returns. -/
structure Mat2D (C : Type) where
  rows : Int
  columns : Int
  cells : C
  next : MatPtr

/-- A `printf` call of the source, with the values of its arguments. -/
inductive Printf (α : Type) where
  /-- The call `printf("%sMatrix Values:\n{\n", prompt)`. -/
  | matrixValues (prompt : String)
  /-- The call `printf("    ")`. -/
  | indent
  /-- The call `printf("%f, ", v)`. -/
  | cell (v : α)
  /-- The call `printf("\n")`. -/
  | newline
  /-- The call `printf("}\n")`. -/
  | closing
  /-- The call `printf("Allocating memory for %s on GPU: %s\n", iD, msg)`. -/
  | allocating (iD msg : String)
  /-- The call `printf("Copying %s to GPU: %s\n", iD, msg)`. -/
  | copying (iD msg : String)
  deriving DecidableEq

/-- The text one `printf` call writes; `fmtF` is the conversion `%f`. -/
def Printf.text {α : Type} (fmtF : α → String) : Printf α → String
  | .matrixValues prompt => prompt ++ "Matrix Values:\n\x7b\n"
  | .indent => "    "
  | .cell v => fmtF v ++ ", "
  | .newline => "\n"
  | .closing => "\x7d\n"
  | .allocating iD msg => "Allocating memory for " ++ iD ++ " on GPU: " ++ msg ++ "\n"
  | .copying iD msg => "Copying " ++ iD ++ " to GPU: " ++ msg ++ "\n"

/-- The text a sequence of `printf` calls leaves on the standard output. -/
def stdoutText {α : Type} (fmtF : α → String) (calls : List (Printf α)) : String :=
  String.join (calls.map (Printf.text fmtF))

/-! ## Control flow -/

/-- The iterations `i, i+1, ...` of a counting loop, `n` of them. -/
def forLoopFrom {σ : Type} (body : Int → σ → σ) : Nat → Int → σ → σ
  | 0, _, s => s
  | n + 1, i, s => forLoopFrom body n (i + 1) (body i s)

/-- The loop `for (int i = 0; i < bound; ++i) body`: it runs `body` for
`i = 0, 1, ..., bound - 1` in this order, and not at all when `bound ≤ 0`. -/
def forLoop {σ : Type} (bound : Int) (body : Int → σ → σ) (s : σ) : σ :=
  forLoopFrom body bound.toNat 0 s

/-! ## Rendering -/

/-- The function `print2DMat(Mat2D out, const char* prompt)`: the `printf` calls it makes, in order. -/
def print2DMat {α : Type} (out : Mat2D (FloatBuf α)) (prompt : String) : List (Printf α) :=
  let stdout := [Printf.matrixValues prompt]
  let stdout := forLoop out.rows (fun i stdout =>
    let stdout := stdout ++ [Printf.indent]
    let stdout := forLoop out.columns (fun t stdout =>
      stdout ++ [Printf.cell (out.cells.read (intAdd (intMul i out.columns) t))]) stdout
    stdout ++ [Printf.newline]) stdout
  stdout ++ [Printf.closing]

/-- The function `pprint2DMat(Mat2D* out, const char* prompt)`; `out` is the matrix the
pointer designates, read through `out->`. -/
def pprint2DMat {α : Type} (out : Mat2D (FloatBuf α)) (prompt : String) : List (Printf α) :=
  let stdout := [Printf.matrixValues prompt]
  let stdout := forLoop out.rows (fun i stdout =>
    let stdout := stdout ++ [Printf.indent]
    let stdout := forLoop out.columns (fun t stdout =>
      stdout ++ [Printf.cell (out.cells.read (intAdd (intMul i out.columns) t))]) stdout
    stdout ++ [Printf.newline]) stdout
  stdout ++ [Printf.closing]

/-! ## Construction from a flat buffer -/

/-- The call `malloc(size)` cast to `float*`: a block of `size / sizeof(float)` float
slots whose contents, like everything around the block, are the indeterminate `junk`.
A request of more than `PTRDIFF_MAX` bytes (what a negative `int` product becomes as a
`size_t`) is beyond any memory: the null pointer is returned and no slot is obtained. -/
def malloc {α : Type} (junk : Int → α) (size : Nat) : FloatBuf α :=
  { block :=
      if size ≤ PTRDIFF_MAX then
        (List.range (size / sizeofFloat)).map (fun (k : Nat) => junk (k : Int))
      else []
    beyond := junk }

/-- What the copy loops of `vecToMat2D` work on: the memory behind `out.cells`, and the
indices of `f_vector` read so far (a record kept for the proofs, not a program variable). -/
structure CopyState (α : Type) where
  cells : FloatBuf α
  reads : List Int

/-- A run of `vecToMat2D`: the matrix returned and the indices of `f_vector` it read,
in order. -/
structure VecToMat2DRun (α : Type) where
  ret : Mat2D (FloatBuf α)
  reads : List Int

/-- The function `vecToMat2D(float f_vector[], int f_rows, int f_cols)`. `out0` is the
indeterminate initial value of the local `out`, `junk` the indeterminate contents of the
memory `malloc` hands out. -/
def vecToMat2D {α : Type} (out0 : Mat2D (FloatBuf α)) (junk : Int → α)
    (f_vector : FloatBuf α) (f_rows f_cols : Int) : VecToMat2DRun α :=
  let out := out0
  let out := { out with rows := f_rows }
  let out := { out with columns := f_cols }
  let out := { out with
    cells := malloc junk (sizeMul (toSizeT (intMul out.rows out.columns)) sizeofFloat) }
  let st := forLoop f_rows (fun i st =>
    forLoop f_cols (fun j st =>
      { cells := st.cells.write (intAdd (intMul i f_cols) j)
          (f_vector.read (intAdd (intMul i f_cols) j))
        reads := st.reads ++ [intAdd (intMul i f_cols) j] }) st) (CopyState.mk out.cells [])
  { ret := { out with cells := st.cells }, reads := st.reads }

/-! ## Staging on the GPU -/

/-- Modelled from the spec: the outcome of a runtime call, the type `cudaError_t` of
`cuda_runtime.h` (a header of the CUDA library, not part of the repository). -/
abbrev cudaError_t := Nat

/-- Modelled from the spec: the outcome `success`, the value `cudaSuccess`. -/
def cudaSuccess : cudaError_t := 0

/-- A `float*` into device memory: an address, `0` being the null pointer. -/
abbrev DevPtr := Nat

/-- The CUDA runtime calls `cudaMSend2D` makes, over a runtime state `D`.
`cudaMalloc st p size` is `cudaMalloc(&cells, size)` with `p` the value of `cells` before
the call: it gives the error code, the value of `cells` after the call and the next state.
`cudaMemcpy st dst src count` is `cudaMemcpy(dst, src, count, cudaMemcpyHostToDevice)`. -/
structure CudaRuntime (D α : Type) where
  cudaMalloc : D → DevPtr → Nat → cudaError_t × DevPtr × D
  cudaMemcpy : D → DevPtr → FloatBuf α → Nat → cudaError_t × D
  cudaGetErrorString : cudaError_t → String

/-- What `cudaMSend2D` does that its caller or the runtime can observe, one step each. -/
inductive Event (α : Type) where
  /-- The call `cudaMalloc(&d_M.cells, size)`. -/
  | cudaMalloc (size : Nat)
  /-- The call `cudaMemcpy(dst, src, count, cudaMemcpyHostToDevice)`. -/
  | cudaMemcpy (dst : DevPtr) (src : FloatBuf α) (count : Nat)
  /-- A `printf` call. -/
  | printf (call : Printf α)

/-- A run of `cudaMSend2D`: the matrix returned, the runtime state left, and the events
in order. -/
structure SendRun (D α : Type) where
  ret : Mat2D DevPtr
  device : D
  events : List (Event α)

/-- The function `cudaMSend2D(Mat2D iM, bool copy, const char* iD)` over the runtime `rt`
in state `dev`. `d_M0` is the indeterminate initial value of the local `d_M`. -/
def cudaMSend2D {D α : Type} (rt : CudaRuntime D α) (d_M0 : Mat2D DevPtr) (dev : D)
    (iM : Mat2D (FloatBuf α)) (copy : Bool) (iD : String) : SendRun D α :=
  let d_M := d_M0
  let d_M := { d_M with rows := iM.rows }
  let d_M := { d_M with columns := iM.columns }
  let size := sizeMul (toSizeT (intMul d_M.rows d_M.columns)) sizeofFloat
  let r := rt.cudaMalloc dev d_M.cells size
  let errCode := r.1
  let d_M := { d_M with cells := r.2.1 }
  let dev := r.2.2
  let events := [Event.cudaMalloc size,
    Event.printf (Printf.allocating iD (rt.cudaGetErrorString errCode))]
  if copy then
    let count := sizeMul (toSizeT (intMul d_M.rows d_M.columns)) sizeofFloat
    let r := rt.cudaMemcpy dev d_M.cells iM.cells count
    let errCode := r.1
    let dev := r.2
    let events := events ++ [Event.cudaMemcpy d_M.cells iM.cells count,
      Event.printf (Printf.copying iD (rt.cudaGetErrorString errCode))]
    { ret := d_M, device := dev, events := events }
  else
    { ret := d_M, device := dev, events := events }

/-! ## Reading the standard output -/

/-- The `printf` calls of one row line: the values of a row, between the indent and the
line break. -/
def rowLine {α : Type} (values : List α) : List (Printf α) :=
  Printf.indent :: (values.map Printf.cell ++ [Printf.newline])

/-- The values printed with `%f`, in the order of their printing. -/
def cellValues {α : Type} : List (Printf α) → List α
  | [] => []
  | Printf.cell v :: rest => v :: cellValues rest
  | _ :: rest => cellValues rest

/-- The lines of values in a sequence of `printf` calls: a line break closes the line
made of the values printed since the line break before it; `current` holds these. -/
def rowLinesFrom {α : Type} : List (Printf α) → List α → List (List α)
  | [], _ => []
  | Printf.cell v :: rest, current => rowLinesFrom rest (current ++ [v])
  | Printf.newline :: rest, current => current :: rowLinesFrom rest []
  | _ :: rest, current => rowLinesFrom rest current

/-- The lines of values that `print2DMat` writes between the two braces. -/
def rowLines {α : Type} (calls : List (Printf α)) : List (List α) :=
  rowLinesFrom calls []

/-- The `printf` calls among the events of a run, in order. -/
def printed {α : Type} : List (Event α) → List (Printf α)
  | [] => []
  | Event.printf call :: rest => call :: printed rest
  | _ :: rest => printed rest

/-! ## The copy loops, step by step -/

/-- The copy loops have dealt with the slots `0, ..., k - 1` of a block of `n` slots:
these hold what was read from `f_vector`, the later slots and the surroundings are as
`malloc` left them. -/
def CopiedUpTo {α : Type} (junk : Int → α) (f_vector : FloatBuf α) (n k : Nat)
    (st : CopyState α) : Prop :=
  st.cells.block = (List.range k).map (fun (x : Nat) => f_vector.read (x : Int))
      ++ ((List.range n).map (fun (x : Nat) => junk (x : Int))).drop k
    ∧ st.cells.beyond = junk
    ∧ st.reads = (List.range k).map (fun (x : Nat) => (x : Int))

/-! ## Accelerator runtimes -/

/-- Modelled from the spec: the outcome of an allocation that found no memory, the value
`cudaErrorMemoryAllocation`. -/
def cudaErrorMemoryAllocation : cudaError_t := 2

/-- Modelled from the spec: the outcome of a call with a bad argument, the value
`cudaErrorInvalidValue`. -/
def cudaErrorInvalidValue : cudaError_t := 11

/-- Modelled from the spec: the outcome-to-text renderer of section 6, the text
`cudaGetErrorString` gives for an error code. -/
def errorString (e : cudaError_t) : String :=
  if e = cudaSuccess then "no error"
  else if e = cudaErrorMemoryAllocation then "out of memory"
  else "invalid argument"

/-- Modelled from the spec: accelerator memory, as the regions allocated so far in the
order of their allocation. The handle `h + 1` names region `h`; `0` is the null handle. -/
abbrev DeviceMem (α : Type) := List (List α)

/-- Modelled from the spec: the accelerator runtime (the CUDA library, not part of the
repository), with the two primitives `allocate(byteSize) → (handle, outcome)` and
`copyHostToDevice(destHandle, srcBuffer, byteSize) → outcome` of section 6, over a
memory in which an allocation always succeeds. `allocate` adds a region of
`byteSize / sizeof(float)` floats of indeterminate contents `junk` and stores its handle;
`copyHostToDevice` writes the first `byteSize / sizeof(float)` floats found at
`srcBuffer` to the start of the region `destHandle` names, and fails on a handle that
names no region or a region that is too small. -/
def deviceRuntime {α : Type} (junk : Int → α) : CudaRuntime (DeviceMem α) α where
  cudaMalloc := fun mem _ size =>
    (cudaSuccess, mem.length + 1,
      mem ++ [(List.range (size / sizeofFloat)).map (fun (k : Nat) => junk (k : Int))])
  cudaMemcpy := fun mem dst src count =>
    match dst with
    | 0 => (cudaErrorInvalidValue, mem)
    | h + 1 =>
      match mem[h]? with
      | none => (cudaErrorInvalidValue, mem)
      | some region =>
        if count / sizeofFloat ≤ region.length then
          (cudaSuccess, mem.set h
            ((List.range (count / sizeofFloat)).map (fun (k : Nat) => src.read (k : Int))
              ++ region.drop (count / sizeofFloat)))
        else (cudaErrorInvalidValue, mem)
  cudaGetErrorString := errorString

/-- Modelled from the spec: the device-to-host read-back of section 8, the `n` floats at
the start of the region a handle names; `none` when the handle names no region of that
size. -/
def readBack {α : Type} (mem : DeviceMem α) (handle : DevPtr) (n : Nat) : Option (List α) :=
  match handle with
  | 0 => none
  | h + 1 =>
    match mem[h]? with
    | none => none
    | some region => if n ≤ region.length then some (region.take n) else none

/-- Modelled from the spec: the region of accelerator memory a handle names. -/
def regionOf {α : Type} (mem : DeviceMem α) (handle : DevPtr) : Option (List α) :=
  match handle with
  | 0 => none
  | h + 1 => mem[h]?

/-- Modelled from the spec: an accelerator runtime out of memory (the allocation failure of
section 7): `allocate` fails with `cudaErrorMemoryAllocation` and leaves the handle
variable as it was, and a copy fails with `cudaErrorInvalidValue`. -/
def exhaustedRuntime (α : Type) : CudaRuntime Unit α where
  cudaMalloc := fun st p _ => (cudaErrorMemoryAllocation, p, st)
  cudaMemcpy := fun st _ _ _ => (cudaErrorInvalidValue, st)
  cudaGetErrorString := errorString

/-! ## Example data -/

/-- An indeterminate initial value of the local `out` of `vecToMat2D`. -/
def exampleLocal : Mat2D (FloatBuf Int) :=
  { rows := 9, columns := 9, cells := { block := [], beyond := fun _ => 0 }, next := 7 }

/-- An indeterminate initial value of the local `d_M` of `cudaMSend2D`. -/
def exampleDeviceLocal : Mat2D DevPtr :=
  { rows := 9, columns := 9, cells := 12345, next := 7 }

/-- Indeterminate memory contents: slot `k` holds `100 + k`. -/
def exampleJunk : Int → Int := fun k => 100 + k

/-- A pointer to the buffer `values`; index `k` outside the buffer holds `-k`. -/
def exampleBuffer (values : List Int) : FloatBuf Int :=
  { block := values, beyond := fun k => -k }

/-- The 2 x 3 host matrix with the cells 1, ..., 6 of section 8. -/
def exampleMatrix : Mat2D (FloatBuf Int) :=
  { rows := 2, columns := 3, cells := exampleBuffer [1, 2, 3, 4, 5, 6], next := NULL }

/-- A host matrix of 65536 rows and 65536 columns, its `2^32` cells all 0. -/
def wideMatrix : Mat2D (FloatBuf Int) :=
  { rows := 65536, columns := 65536
    cells := exampleBuffer (List.replicate 4294967296 0), next := NULL }

/-- A host matrix of 46341 rows and 46341 columns, its 2147488281 cells all 0. -/
def squareMatrix : Mat2D (FloatBuf Int) :=
  { rows := 46341, columns := 46341
    cells := exampleBuffer (List.replicate 2147488281 0), next := NULL }

/-! ## Arithmetic of `int` and `size_t` -/

theorem wrapInt_of_fits (x : Int) (hlo : 0 ≤ x) (hhi : x ≤ INT_MAX) : wrapInt x = x := by
  unfold wrapInt
  unfold INT_MAX at hhi
  omega

theorem index_of_fits (i c j : Nat) (h : ((i * c + j : Nat) : Int) ≤ INT_MAX) :
    intAdd (intMul (i : Int) (c : Int)) (j : Int) = ((i * c + j : Nat) : Int) := by
  have hmul : intMul (i : Int) (c : Int) = ((i * c : Nat) : Int) := by
    unfold intMul
    rw [← Nat.cast_mul]
    apply wrapInt_of_fits _ (Int.natCast_nonneg _)
    have : ((i * c : Nat) : Int) ≤ ((i * c + j : Nat) : Int) := by
      exact_mod_cast Nat.le_add_right _ _
    omega
  unfold intAdd
  rw [hmul, ← Nat.cast_add]
  exact wrapInt_of_fits _ (Int.natCast_nonneg _) h

theorem bytes_of_fits (r c : Nat) (h : ((r * c : Nat) : Int) ≤ INT_MAX) :
    sizeMul (toSizeT (intMul (r : Int) (c : Int))) sizeofFloat = (r * c) * 4 := by
  have hmul : intMul (r : Int) (c : Int) = ((r * c : Nat) : Int) := by
    unfold intMul
    rw [← Nat.cast_mul]
    exact wrapInt_of_fits _ (Int.natCast_nonneg _) h
  rw [hmul]
  unfold sizeMul toSizeT sizeofFloat
  unfold INT_MAX at h
  generalize r * c = n at h ⊢
  omega

theorem malloc_of_fits {α : Type} (junk : Int → α) (r c : Nat)
    (h : ((r * c : Nat) : Int) ≤ INT_MAX) :
    malloc junk (sizeMul (toSizeT (intMul (r : Int) (c : Int))) sizeofFloat)
      = { block := (List.range (r * c)).map (fun (k : Nat) => junk (k : Int))
          beyond := junk } := by
  rw [bytes_of_fits r c h]
  have hle : r * c * 4 ≤ PTRDIFF_MAX := by
    unfold INT_MAX at h
    unfold PTRDIFF_MAX
    generalize r * c = n at h ⊢
    omega
  simp [malloc, hle, sizeofFloat]

/-! ## Loops -/

theorem forLoopFrom_induct {σ : Type} (P : Nat → σ → Prop) (body : Int → σ → σ) :
    ∀ (n : Nat) (i0 : Int) (s : σ), P 0 s →
      (∀ (k : Nat) (s : σ), k < n → P k s → P (k + 1) (body (i0 + (k : Int)) s)) →
      P n (forLoopFrom body n i0 s) := by
  intro n
  induction n generalizing P with
  | zero => intro i0 s h0 _; simpa [forLoopFrom] using h0
  | succ n ih =>
    intro i0 s h0 hs
    simp only [forLoopFrom]
    have h1 : P 1 (body i0 s) := by simpa using hs 0 s (Nat.succ_pos n) h0
    have := ih (fun k s => P (k + 1) s) (i0 + 1) (body i0 s) h1 (by
      intro k s hk hP
      have := hs (k + 1) s (by omega) hP
      simpa [add_assoc, add_comm (1 : Int)] using this)
    exact this

theorem forLoopFrom_append {β : Type} (f : Int → List β) (n : Nat) (i0 : Int) (s : List β) :
    forLoopFrom (fun i s => s ++ f i) n i0 s
      = s ++ (List.range n).flatMap (fun (k : Nat) => f (i0 + (k : Int))) := by
  refine forLoopFrom_induct
    (fun k st => st = s ++ (List.range k).flatMap (fun (k : Nat) => f (i0 + (k : Int))))
    _ n i0 s (by simp) ?_
  intro k st _ hst
  subst hst
  simp [List.range_succ, List.flatMap_append]

theorem forLoopFrom_snoc {β : Type} (g : Int → β) (n : Nat) (i0 : Int) (s : List β) :
    forLoopFrom (fun i s => s ++ [g i]) n i0 s
      = s ++ (List.range n).map (fun (k : Nat) => g (i0 + (k : Int))) := by
  refine forLoopFrom_induct
    (fun k st => st = s ++ (List.range k).map (fun (k : Nat) => g (i0 + (k : Int))))
    _ n i0 s (by simp) ?_
  intro k st _ hst
  subst hst
  simp [List.range_succ]

theorem forLoop_of_nonpos {σ : Type} (bound : Int) (h : bound ≤ 0) (body : Int → σ → σ)
    (s : σ) : forLoop bound body s = s := by
  simp [forLoop, Int.toNat_of_nonpos h, forLoopFrom]

theorem forLoopFrom_id {σ : Type} (body : Int → σ → σ) (hbody : ∀ i s, body i s = s)
    (n : Nat) (i0 : Int) (s : σ) : forLoopFrom body n i0 s = s := by
  induction n generalizing i0 s with
  | zero => rfl
  | succ n ih => simp [forLoopFrom, hbody, ih]

/-! ## Reads through a `float*` -/

theorem read_of_lt {α : Type} (p : FloatBuf α) (k : Nat) (hk : k < p.block.length) :
    p.block[k]? = some (p.read (k : Int)) := by
  simp [FloatBuf.read, List.getElem?_eq_getElem hk]

theorem map_read_range {α : Type} (p : FloatBuf α) (n : Nat) (hn : n ≤ p.block.length) :
    (List.range n).map (fun (x : Nat) => p.read (x : Int)) = p.block.take n := by
  apply List.ext_getElem?
  intro k
  by_cases hk : k < n
  · rw [List.getElem?_map, List.getElem?_range hk, List.getElem?_take_of_lt hk,
      read_of_lt p k (by omega)]
    rfl
  · rw [List.getElem?_eq_none (by simpa using hk), List.getElem?_eq_none]
    simp only [List.length_take]
    omega

theorem map_read_row {α : Type} (p : FloatBuf α) (i c : Nat)
    (h : i * c + c ≤ p.block.length) (hfit : (p.block.length : Int) ≤ INT_MAX) :
    (List.range c).map
        (fun (t : Nat) => p.read (intAdd (intMul (i : Int) (c : Int)) (t : Int)))
      = (p.block.drop (i * c)).take c := by
  apply List.ext_getElem?
  intro k
  by_cases hk : k < c
  · have hidx : intAdd (intMul (i : Int) (c : Int)) (k : Int) = ((i * c + k : Nat) : Int) := by
      apply index_of_fits
      have : ((i * c + k : Nat) : Int) ≤ (p.block.length : Int) := by
        exact_mod_cast (by omega : i * c + k ≤ p.block.length)
      omega
    rw [List.getElem?_map, List.getElem?_range hk, List.getElem?_take_of_lt hk,
      List.getElem?_drop, read_of_lt p (i * c + k) (by omega)]
    simp only [Option.map_some', hidx]
  · rw [List.getElem?_eq_none (by simpa using hk), List.getElem?_eq_none]
    simp only [List.length_take]
    omega

/-! ## Rows of a row-major buffer -/

theorem flatMap_rows {α : Type} (buf : List α) (c r : Nat) (h : r * c ≤ buf.length) :
    (List.range r).flatMap (fun (i : Nat) => (buf.drop (i * c)).take c) = buf.take (r * c) := by
  induction r with
  | zero => simp
  | succ r ih =>
    have hr : r * c ≤ buf.length := by
      have : r * c ≤ (r + 1) * c := Nat.mul_le_mul_right c (Nat.le_succ r)
      omega
    rw [List.range_succ, List.flatMap_append, ih hr, List.flatMap_singleton, Nat.succ_mul,
      List.take_add]

theorem rowLine_append {α : Type} (values : List α) (rest : List (Printf α)) :
    rowLine values ++ rest
      = Printf.indent :: (values.map Printf.cell ++ Printf.newline :: rest) := by
  simp [rowLine]

theorem cellValues_cells {α : Type} (values : List α) (rest : List (Printf α)) :
    cellValues (values.map Printf.cell ++ rest) = values ++ cellValues rest := by
  induction values with
  | nil => rfl
  | cons v vs ih =>
    rw [List.map_cons, List.cons_append, List.cons_append]
    simp only [cellValues, ih]

theorem cellValues_flatMap_rowLine {α : Type} (rows : List (List α)) (rest : List (Printf α)) :
    cellValues (rows.flatMap rowLine ++ rest) = rows.flatten ++ cellValues rest := by
  induction rows with
  | nil => simp
  | cons l ls ih =>
    rw [List.flatMap_cons, List.append_assoc, rowLine_append, List.flatten_cons,
      List.append_assoc, ← ih]
    simp only [cellValues]
    rw [cellValues_cells]
    simp only [cellValues]

theorem rowLinesFrom_cells {α : Type} (values current : List α) (rest : List (Printf α)) :
    rowLinesFrom (values.map Printf.cell ++ Printf.newline :: rest) current
      = (current ++ values) :: rowLinesFrom rest [] := by
  induction values generalizing current with
  | nil => simp [rowLinesFrom]
  | cons v vs ih =>
    rw [List.map_cons, List.cons_append]
    simp only [rowLinesFrom, ih, List.append_assoc, List.singleton_append]

theorem rowLinesFrom_flatMap_rowLine {α : Type} (rows : List (List α))
    (rest : List (Printf α)) :
    rowLinesFrom (rows.flatMap rowLine ++ rest) [] = rows ++ rowLinesFrom rest [] := by
  induction rows with
  | nil => simp
  | cons l ls ih =>
    rw [List.flatMap_cons, List.append_assoc, rowLine_append, List.cons_append, ← ih]
    simp only [rowLinesFrom]
    rw [rowLinesFrom_cells, List.nil_append]

/-! ## The `printf` calls of `print2DMat` -/

theorem print2DMat_calls {α : Type} (out : Mat2D (FloatBuf α)) (prompt : String) :
    print2DMat out prompt
      = Printf.matrixValues prompt ::
          ((List.range out.rows.toNat).flatMap (fun (i : Nat) =>
            rowLine ((List.range out.columns.toNat).map
              (fun (t : Nat) =>
                out.cells.read (intAdd (intMul (i : Int) out.columns) (t : Int)))))
            ++ [Printf.closing]) := by
  have inner : ∀ (i : Int) (s : List (Printf α)),
      forLoop out.columns (fun t stdout =>
        stdout ++ [Printf.cell (out.cells.read (intAdd (intMul i out.columns) t))]) s
        = s ++ (List.range out.columns.toNat).map
            (fun (t : Nat) =>
              Printf.cell (out.cells.read (intAdd (intMul i out.columns) (t : Int)))) := by
    intro i s
    unfold forLoop
    rw [forLoopFrom_snoc
      (fun t => Printf.cell (out.cells.read (intAdd (intMul i out.columns) t)))]
    simp only [zero_add]
  unfold print2DMat
  simp only [inner]
  unfold forLoop
  have key := forLoopFrom_append (fun i => rowLine ((List.range out.columns.toNat).map
              (fun (t : Nat) => out.cells.read (intAdd (intMul i out.columns) (t : Int)))))
              out.rows.toNat 0 [Printf.matrixValues prompt]
  simp only [rowLine, List.map_map, zero_add, Function.comp_def] at key ⊢
  simp only [List.append_assoc, List.singleton_append, List.cons_append, List.nil_append]
    at key ⊢
  rw [key]
  rfl

/-! ## The copy loops of `vecToMat2D` -/

theorem copiedUpTo_step {α : Type} (junk : Int → α) (f_vector : FloatBuf α) (n k : Nat)
    (st : CopyState α) (hk : k < n) (h : CopiedUpTo junk f_vector n k st) :
    CopiedUpTo junk f_vector n (k + 1)
      { cells := st.cells.write (k : Int) (f_vector.read (k : Int))
        reads := st.reads ++ [(k : Int)] } := by
  obtain ⟨hb, hj, hr⟩ := h
  have hlen : st.cells.block.length = n := by
    rw [hb]; simp; omega
  have hcond : (0 : Int) ≤ (k : Int) ∧ (k : Int).toNat < st.cells.block.length := by
    simp [hlen, hk]
  refine ⟨?_, ?_, ?_⟩
  · simp only [FloatBuf.write, if_pos hcond, Int.toNat_ofNat, hb]
    rw [List.set_append_right _ _ (by simp)]
    simp only [List.length_map, List.length_range, Nat.sub_self, List.range_succ,
      List.map_append, List.map_cons, List.map_nil, List.append_assoc, List.singleton_append]
    rw [List.drop_eq_getElem_cons (by simpa using hk)]
    simp
  · simp only [FloatBuf.write, if_pos hcond, hj]
  · simp [hr, List.range_succ]

theorem vecToMat2D_run {α : Type} (out0 : Mat2D (FloatBuf α)) (junk : Int → α)
    (f_vector : FloatBuf α) (r c : Nat) (hfit : ((r * c : Nat) : Int) ≤ INT_MAX) :
    vecToMat2D out0 junk f_vector (r : Int) (c : Int)
      = { ret := { rows := (r : Int), columns := (c : Int),
                   cells := { block := (List.range (r * c)).map
                                (fun (x : Nat) => f_vector.read (x : Int)),
                              beyond := junk },
                   next := out0.next },
          reads := (List.range (r * c)).map (fun (x : Nat) => (x : Int)) } := by
  have hfin : CopiedUpTo junk f_vector (r * c) (r * c)
      (forLoop (r : Int) (fun i st =>
        forLoop (c : Int) (fun j st =>
          { cells := st.cells.write (intAdd (intMul i (c : Int)) j)
              (f_vector.read (intAdd (intMul i (c : Int)) j))
            reads := st.reads ++ [intAdd (intMul i (c : Int)) j] }) st)
        (CopyState.mk
          (malloc junk (sizeMul (toSizeT (intMul (r : Int) (c : Int))) sizeofFloat)) [])) := by
    unfold forLoop
    simp only [Int.toNat_ofNat]
    have := forLoopFrom_induct (fun i st => CopiedUpTo junk f_vector (r * c) (i * c) st)
      (fun i st =>
        forLoopFrom (fun j st =>
          { cells := st.cells.write (intAdd (intMul i (c : Int)) j)
              (f_vector.read (intAdd (intMul i (c : Int)) j))
            reads := st.reads ++ [intAdd (intMul i (c : Int)) j] }) c 0 st) r 0
      (CopyState.mk
        (malloc junk (sizeMul (toSizeT (intMul (r : Int) (c : Int))) sizeofFloat)) []) ?_ ?_
    · exact this
    · rw [malloc_of_fits junk r c hfit]
      refine ⟨?_, ?_, ?_⟩ <;> simp
    · intro i st hi hst
      have := forLoopFrom_induct
        (fun j st => CopiedUpTo junk f_vector (r * c) (i * c + j) st)
        (fun j st =>
          ({ cells := st.cells.write (intAdd (intMul (0 + (i : Int)) (c : Int)) j)
                (f_vector.read (intAdd (intMul (0 + (i : Int)) (c : Int)) j))
             reads := st.reads ++ [intAdd (intMul (0 + (i : Int)) (c : Int)) j] }
            : CopyState α)) c 0 st
        (by simpa using hst) ?_
      · simpa [Nat.succ_mul] using this
      · intro j st hj hst
        have hlt : i * c + j < r * c := by
          calc i * c + j < i * c + c := by omega
            _ = (i + 1) * c := by ring
            _ ≤ r * c := Nat.mul_le_mul_right c hi
        have := copiedUpTo_step junk f_vector (r * c) (i * c + j) st hlt hst
        have e : intAdd (intMul (0 + (i : Int)) (c : Int)) (0 + (j : Int))
            = ((i * c + j : Nat) : Int) := by
          rw [zero_add, zero_add]
          apply index_of_fits
          have : ((i * c + j : Nat) : Int) ≤ ((r * c : Nat) : Int) := by
            exact_mod_cast hlt.le
          omega
        beta_reduce
        rw [e]
        exact this
  obtain ⟨hb, hj, hr⟩ := hfin
  unfold vecToMat2D
  simp only
  rw [List.drop_of_length_le (by simp), List.append_nil] at hb
  generalize forLoop (r : Int) _ _ = st at hb hj hr ⊢
  obtain ⟨⟨b, y⟩, rd⟩ := st
  simp only at hb hj hr
  subst hb hj hr
  rfl

theorem vecToMat2D_no_iteration {α : Type} (out0 : Mat2D (FloatBuf α)) (junk : Int → α)
    (f_vector : FloatBuf α) (rows columns : Int) (h : rows ≤ 0 ∨ columns ≤ 0) :
    vecToMat2D out0 junk f_vector rows columns
      = { ret := { rows := rows, columns := columns,
                   cells := malloc junk (sizeMul (toSizeT (intMul rows columns)) sizeofFloat),
                   next := out0.next },
          reads := [] } := by
  have hloop : ∀ st : CopyState α,
      forLoop rows (fun i st =>
        forLoop columns (fun j st =>
          { cells := st.cells.write (intAdd (intMul i columns) j)
              (f_vector.read (intAdd (intMul i columns) j))
            reads := st.reads ++ [intAdd (intMul i columns) j] }) st) st = st := by
    intro st
    rcases h with h | h
    · exact forLoop_of_nonpos rows h _ st
    · exact forLoopFrom_id _ (fun i s => forLoop_of_nonpos columns h _ s) _ _ st
  unfold vecToMat2D
  simp only [hloop]

/-! ## The copy loops beyond the range of `int` -/

theorem write_block_length {α : Type} (p : FloatBuf α) (k : Int) (v : α) :
    (p.write k v).block.length = p.block.length := by
  unfold FloatBuf.write
  split <;> simp

theorem read_write {α : Type} (p : FloatBuf α) (k k' : Int) (v : α) :
    (p.write k v).read k' = if k' = k then v else p.read k' := by
  unfold FloatBuf.write
  by_cases hin : 0 ≤ k ∧ k.toNat < p.block.length
  · rw [if_pos hin]
    by_cases hk : k' = k
    · subst hk
      simp [FloatBuf.read, hin.1, hin.2]
    · rw [if_neg hk]
      unfold FloatBuf.read
      by_cases h0 : 0 ≤ k'
      · have hne : k.toNat ≠ k'.toNat := by
          intro e
          apply hk
          have := hin.1
          omega
        simp only [if_pos h0]
        rw [List.getElem?_set_ne hne]
      · simp only [if_neg h0]
  · rw [if_neg hin]
    by_cases hk : k' = k
    · subst hk
      unfold FloatBuf.read
      by_cases h0 : 0 ≤ k'
      · have hout : p.block.length ≤ k'.toNat := by
          by_contra hc
          exact hin ⟨h0, by omega⟩
        simp [h0, List.getElem?_eq_none hout]
      · simp [h0]
    · simp [FloatBuf.read, hk]

theorem vecToMat2D_block_length {α : Type} (out0 : Mat2D (FloatBuf α)) (junk : Int → α)
    (f_vector : FloatBuf α) (rows columns : Int) :
    (vecToMat2D out0 junk f_vector rows columns).ret.cells.block.length
      = (malloc junk (sizeMul (toSizeT (intMul rows columns)) sizeofFloat)).block.length := by
  unfold vecToMat2D forLoop
  simp only
  apply forLoopFrom_induct (fun _ (st : CopyState α) => st.cells.block.length
    = (malloc junk (sizeMul (toSizeT (intMul rows columns)) sizeofFloat)).block.length)
  · rfl
  · intro i st _ hst
    apply forLoopFrom_induct (fun _ (st : CopyState α) => st.cells.block.length
      = (malloc junk (sizeMul (toSizeT (intMul rows columns)) sizeofFloat)).block.length)
    · exact hst
    · intro j st _ hst
      simpa [write_block_length] using hst

theorem vecToMat2D_read_back {α : Type} (out0 : Mat2D (FloatBuf α)) (junk : Int → α)
    (f_vector : FloatBuf α) (rows columns : Int) (i j : Nat) (hi : i < rows.toNat)
    (hj : j < columns.toNat) :
    (vecToMat2D out0 junk f_vector rows columns).ret.cells.read
        (intAdd (intMul (i : Int) columns) (j : Int))
      = f_vector.read (intAdd (intMul (i : Int) columns) (j : Int)) := by
  have key : ∀ (a b : Nat), a < rows.toNat → b < columns.toNat →
      (forLoop rows (fun i st =>
        forLoop columns (fun j st =>
          ({ cells := st.cells.write (intAdd (intMul i columns) j)
              (f_vector.read (intAdd (intMul i columns) j))
             reads := st.reads ++ [intAdd (intMul i columns) j] } : CopyState α)) st)
        (CopyState.mk
          (malloc junk (sizeMul (toSizeT (intMul rows columns)) sizeofFloat)) [])).cells.read
          (intAdd (intMul (a : Int) columns) (b : Int))
        = f_vector.read (intAdd (intMul (a : Int) columns) (b : Int)) := by
    unfold forLoop
    refine forLoopFrom_induct
      (fun (n : Nat) (st : CopyState α) => ∀ (a b : Nat), a < n → b < columns.toNat →
        st.cells.read (intAdd (intMul (a : Int) columns) (b : Int))
          = f_vector.read (intAdd (intMul (a : Int) columns) (b : Int))) _ _ _ _ ?_ ?_
    · intro a b ha _
      exact absurd ha (Nat.not_lt_zero a)
    · intro n st _ hst
      have inner := forLoopFrom_induct
        (fun (m : Nat) (st : CopyState α) =>
          (∀ (a b : Nat), a < n → b < columns.toNat →
            st.cells.read (intAdd (intMul (a : Int) columns) (b : Int))
              = f_vector.read (intAdd (intMul (a : Int) columns) (b : Int)))
          ∧ (∀ (b : Nat), b < m →
            st.cells.read (intAdd (intMul (n : Int) columns) (b : Int))
              = f_vector.read (intAdd (intMul (n : Int) columns) (b : Int))))
        (fun j st =>
          ({ cells := st.cells.write (intAdd (intMul (0 + (n : Int)) columns) j)
              (f_vector.read (intAdd (intMul (0 + (n : Int)) columns) j))
             reads := st.reads ++ [intAdd (intMul (0 + (n : Int)) columns) j] }
            : CopyState α)) columns.toNat 0 st
        ⟨hst, fun b hb => absurd hb (Nat.not_lt_zero b)⟩ ?_
      · intro a b ha hb
        rcases Nat.lt_succ_iff_lt_or_eq.mp ha with h | h
        · exact inner.1 a b h hb
        · subst h
          exact inner.2 b hb
      · intro m st _ hst
        beta_reduce
        simp only [zero_add]
        refine ⟨?_, ?_⟩
        · intro a b ha hb
          rw [read_write]
          split
          · next e => rw [e]
          · exact hst.1 a b ha hb
        · intro b hb
          rw [read_write]
          split
          · next e => rw [e]
          · rcases Nat.lt_succ_iff_lt_or_eq.mp hb with h | h
            · exact hst.2 b h
            · subst h
              next e => exact absurd rfl e
  exact key i j hi hj

/-! ## Claims on `vecToMat2D` -/

/-- Claim C1, as the code has it: for `rows > 0`, `columns > 0` with `rows*columns` no more
than `INT_MAX`, and a buffer of at least `rows*columns` floats, `vecToMat2D` returns a matrix
whose `rows` and `columns` are the arguments and whose cells are exactly `rows*columns`
floats, the cell at `i*columns + j` being the buffer's float at `i*columns + j`: the cells
are a copy of the first `rows*columns` floats of the buffer, and what follows them in the
buffer is ignored. -/
theorem vecToMat2D_copies_buffer {α : Type} (out0 : Mat2D (FloatBuf α)) (junk : Int → α)
    (f_vector : FloatBuf α) (rows columns : Int) (hrows : 0 < rows) (hcolumns : 0 < columns)
    (hfit : rows * columns ≤ INT_MAX)
    (hlen : rows * columns ≤ (f_vector.block.length : Int)) :
    (vecToMat2D out0 junk f_vector rows columns).ret.rows = rows
    ∧ (vecToMat2D out0 junk f_vector rows columns).ret.columns = columns
    ∧ ((vecToMat2D out0 junk f_vector rows columns).ret.cells.block.length : Int)
        = rows * columns
    ∧ (∀ i j : Int, 0 ≤ i → i < rows → 0 ≤ j → j < columns →
        ∃ v, f_vector.block[(i * columns + j).toNat]? = some v
          ∧ (vecToMat2D out0 junk f_vector rows columns).ret.cells.block[
              (i * columns + j).toNat]? = some v)
    ∧ (vecToMat2D out0 junk f_vector rows columns).ret.cells.block
        = f_vector.block.take (rows * columns).toNat := by
  lift rows to ℕ using hrows.le with r
  lift columns to ℕ using hcolumns.le with c
  have hn : r * c ≤ f_vector.block.length := by exact_mod_cast hlen
  have hfit' : ((r * c : Nat) : Int) ≤ INT_MAX := by exact_mod_cast hfit
  have hrun := vecToMat2D_run out0 junk f_vector r c hfit'
  have hblock : (vecToMat2D out0 junk f_vector (r : Int) (c : Int)).ret.cells.block
      = f_vector.block.take (r * c) := by
    rw [hrun]
    exact map_read_range f_vector (r * c) hn
  have htoNat : ((r : Int) * (c : Int)).toNat = r * c := by
    rw [← Nat.cast_mul, Int.toNat_ofNat]
  refine ⟨by rw [hrun], by rw [hrun], ?_, ?_, ?_⟩
  · rw [hblock, List.length_take, Nat.min_eq_left hn]
    push_cast
    rfl
  · intro i j hi0 hi hj0 hj
    lift i to ℕ using hi0 with a
    lift j to ℕ using hj0 with b
    have ha : a < r := by exact_mod_cast hi
    have hb : b < c := by exact_mod_cast hj
    have hlt : a * c + b < r * c := by
      calc a * c + b < a * c + c := by omega
        _ = (a + 1) * c := by ring
        _ ≤ r * c := Nat.mul_le_mul_right c ha
    have hk : ((a : Int) * (c : Int) + (b : Int)).toNat = a * c + b := by
      rw [← Nat.cast_mul, ← Nat.cast_add, Int.toNat_ofNat]
    rw [hk, hblock, List.getElem?_take_of_lt hlt]
    exact ⟨f_vector.block[a * c + b], List.getElem?_eq_getElem (by omega),
      List.getElem?_eq_getElem (by omega)⟩
  · rw [hblock, htoNat]

/-- Claim C1 as the code has it, at the buffer 1, ..., 8 with 2 rows and 3 columns: the
cells are 1, ..., 6. -/
theorem vecToMat2D_copies_buffer_witness :
    ((0 : Int) < 2 ∧ (0 : Int) < 3 ∧ (2 : Int) * 3 ≤ INT_MAX
      ∧ (2 : Int) * 3 ≤ ((exampleBuffer [1, 2, 3, 4, 5, 6, 7, 8]).block.length : Int))
    ∧ (vecToMat2D exampleLocal exampleJunk
        (exampleBuffer [1, 2, 3, 4, 5, 6, 7, 8]) 2 3).ret.cells.block = [1, 2, 3, 4, 5, 6] :=
  ⟨by decide,
   (vecToMat2D_copies_buffer exampleLocal exampleJunk
      (exampleBuffer [1, 2, 3, 4, 5, 6, 7, 8]) 2 3 (by decide) (by decide) (by decide)
      (by decide)).2.2.2.2⟩

/-- Claim C1 fails on the code: with 65536 rows, 65536 columns and a buffer of `2^32`
floats, the `int` product `rows*columns` is 0, `malloc` is asked for 0 bytes and the matrix
returned has no cell in its block, not `65536*65536`. -/
theorem vecToMat2D_copies_buffer_counterexample :
    ((0 : Int) < 65536 ∧ (0 : Int) < 65536
      ∧ (65536 : Int) * 65536
          ≤ ((exampleBuffer (List.replicate 4294967296 0)).block.length : Int))
    ∧ sizeMul (toSizeT (intMul 65536 65536)) sizeofFloat = 0
    ∧ (vecToMat2D exampleLocal exampleJunk
        (exampleBuffer (List.replicate 4294967296 0)) 65536 65536).ret.cells.block = []
    ∧ ((vecToMat2D exampleLocal exampleJunk
        (exampleBuffer (List.replicate 4294967296 0)) 65536 65536).ret.cells.block.length
          : Int) ≠ 65536 * 65536 := by
  have hsize : sizeMul (toSizeT (intMul 65536 65536)) sizeofFloat = 0 := by decide
  have hzero : (malloc exampleJunk 0).block.length = 0 := by decide
  have hlen := vecToMat2D_block_length exampleLocal exampleJunk
    (exampleBuffer (List.replicate 4294967296 0)) 65536 65536
  rw [hsize, hzero] at hlen
  refine ⟨⟨by decide, by decide, ?_⟩, hsize, List.length_eq_zero.mp hlen, ?_⟩
  · unfold exampleBuffer
    simp only [List.length_replicate]
    norm_num
  · rw [hlen]
    norm_num

/-- Claim C7, as the code has it: `vecToMat2D` never assigns the `next` field; the matrix it
returns carries in `next` the indeterminate value the local `out` started with. -/
theorem vecToMat2D_next_untouched {α : Type} (out0 : Mat2D (FloatBuf α)) (junk : Int → α)
    (f_vector : FloatBuf α) (rows columns : Int) :
    (vecToMat2D out0 junk f_vector rows columns).ret.next = out0.next :=
  rfl

/-- Claim C7 fails on the code: where the local `out` starts with the address 7 in `next`,
the matrix `vecToMat2D` returns has `next = 7`, which is not the null pointer. -/
theorem vecToMat2D_next_counterexample :
    (vecToMat2D exampleLocal exampleJunk (exampleBuffer [1, 2, 3, 4, 5, 6]) 2 3).ret.next = 7
    ∧ (vecToMat2D exampleLocal exampleJunk (exampleBuffer [1, 2, 3, 4, 5, 6]) 2 3).ret.next
        ≠ NULL := by
  decide

/-- Claim C8, as the code has it: with `rows ≤ 0` or `columns ≤ 0`, `vecToMat2D` signals
nothing and returns a matrix: `rows` and `columns` are the arguments, `cells` is what
`malloc(rows*columns*sizeof(float))` gave, untouched, and no position of `f_vector` has
been read. -/
theorem vecToMat2D_nonpositive_dimensions {α : Type} (out0 : Mat2D (FloatBuf α))
    (junk : Int → α) (f_vector : FloatBuf α) (rows columns : Int)
    (hdims : rows ≤ 0 ∨ columns ≤ 0) :
    (vecToMat2D out0 junk f_vector rows columns).ret.rows = rows
    ∧ (vecToMat2D out0 junk f_vector rows columns).ret.columns = columns
    ∧ (vecToMat2D out0 junk f_vector rows columns).ret.cells
        = malloc junk (sizeMul (toSizeT (intMul rows columns)) sizeofFloat)
    ∧ (vecToMat2D out0 junk f_vector rows columns).reads = [] := by
  rw [vecToMat2D_no_iteration out0 junk f_vector rows columns hdims]
  exact ⟨rfl, rfl, rfl, rfl⟩

/-- Claim C8 as the code has it, at 0 rows and 3 columns. -/
theorem vecToMat2D_nonpositive_dimensions_witness :
    ((0 : Int) ≤ 0 ∨ (3 : Int) ≤ 0)
    ∧ (vecToMat2D exampleLocal exampleJunk (exampleBuffer [1, 2, 3, 4, 5, 6]) 0 3).ret.rows = 0
    ∧ (vecToMat2D exampleLocal exampleJunk (exampleBuffer [1, 2, 3, 4, 5, 6]) 0 3).reads = [] :=
  ⟨by decide,
   (vecToMat2D_nonpositive_dimensions exampleLocal exampleJunk
      (exampleBuffer [1, 2, 3, 4, 5, 6]) 0 3 (by decide)).1,
   (vecToMat2D_nonpositive_dimensions exampleLocal exampleJunk
      (exampleBuffer [1, 2, 3, 4, 5, 6]) 0 3 (by decide)).2.2.2⟩

/-- Claim C8 fails on the code: with 0 rows and 3 columns `vecToMat2D` returns a matrix, of
0 rows, 3 columns and no cell; with 2 rows and -3 columns it returns a matrix of 2 rows
and -3 columns. -/
theorem vecToMat2D_nonpositive_dimensions_counterexample :
    ((vecToMat2D exampleLocal exampleJunk (exampleBuffer [1, 2, 3, 4, 5, 6]) 0 3).ret.rows = 0
      ∧ (vecToMat2D exampleLocal exampleJunk
          (exampleBuffer [1, 2, 3, 4, 5, 6]) 0 3).ret.columns = 3
      ∧ (vecToMat2D exampleLocal exampleJunk
          (exampleBuffer [1, 2, 3, 4, 5, 6]) 0 3).ret.cells.block = [])
    ∧ ((vecToMat2D exampleLocal exampleJunk
          (exampleBuffer [1, 2, 3, 4, 5, 6]) 2 (-3)).ret.rows = 2
      ∧ (vecToMat2D exampleLocal exampleJunk
          (exampleBuffer [1, 2, 3, 4, 5, 6]) 2 (-3)).ret.columns = -3
      ∧ (vecToMat2D exampleLocal exampleJunk
          (exampleBuffer [1, 2, 3, 4, 5, 6]) 2 (-3)).ret.cells.block = []) := by
  decide

/-! ## Claims on rendering -/

theorem flatMap_rowLine_eq {α : Type} (r : Nat) (g : Nat → List α) :
    (List.range r).flatMap (fun (i : Nat) => rowLine (g i))
      = ((List.range r).map g).flatMap rowLine := by
  simp [List.flatMap_def, List.map_map, Function.comp_def]

theorem rowLines_print2DMat {α : Type} (out : Mat2D (FloatBuf α)) (prompt : String) :
    rowLines (print2DMat out prompt)
      = (List.range out.rows.toNat).map (fun (i : Nat) =>
          (List.range out.columns.toNat).map (fun (t : Nat) =>
            out.cells.read (intAdd (intMul (i : Int) out.columns) (t : Int)))) := by
  rw [print2DMat_calls, flatMap_rowLine_eq]
  simp only [rowLines, rowLinesFrom]
  rw [rowLinesFrom_flatMap_rowLine]
  simp [rowLinesFrom]

theorem print2DMat_full {α : Type} (out : Mat2D (FloatBuf α)) (prompt : String) (r c : Nat)
    (hr : out.rows = (r : Int)) (hc : out.columns = (c : Int))
    (hlen : out.cells.block.length = r * c) (hfit : ((r * c : Nat) : Int) ≤ INT_MAX) :
    print2DMat out prompt
      = Printf.matrixValues prompt ::
          (((List.range r).map (fun (i : Nat) => (out.cells.block.drop (i * c)).take c)).flatMap
            rowLine ++ [Printf.closing]) := by
  rw [print2DMat_calls, hr, hc, Int.toNat_ofNat, Int.toNat_ofNat, flatMap_rowLine_eq]
  congr 3
  apply List.map_congr_left
  intro i hi
  have hi : i < r := by simpa using hi
  apply map_read_row
  · calc i * c + c = (i + 1) * c := by ring
      _ ≤ r * c := Nat.mul_le_mul_right c hi
      _ = out.cells.block.length := hlen.symm
  · rw [hlen]
    exact hfit

/-- Claim C2, as the code has it: for `rows > 0`, `columns > 0` with `rows*columns` no more
than `INT_MAX`, and a buffer of exactly `rows*columns` floats, `print2DMat` of the matrix
`vecToMat2D` builds prints every float of the buffer exactly once, in row-major order:
after the heading come `rows` row lines and the closing brace, and row line `i` prints
exactly the `columns` floats of the buffer from position `i*columns` on, in their order. -/
theorem print2DMat_vecToMat2D_row_major {α : Type} (out0 : Mat2D (FloatBuf α))
    (junk : Int → α) (f_vector : FloatBuf α) (rows columns : Int) (prompt : String)
    (hrows : 0 < rows) (hcolumns : 0 < columns) (hfit : rows * columns ≤ INT_MAX)
    (hlen : (f_vector.block.length : Int) = rows * columns) :
    print2DMat (vecToMat2D out0 junk f_vector rows columns).ret prompt
        = Printf.matrixValues prompt ::
            ((List.range rows.toNat).flatMap (fun (i : Nat) =>
              rowLine ((f_vector.block.drop (i * columns.toNat)).take columns.toNat))
              ++ [Printf.closing])
    ∧ cellValues (print2DMat (vecToMat2D out0 junk f_vector rows columns).ret prompt)
        = f_vector.block
    ∧ rowLines (print2DMat (vecToMat2D out0 junk f_vector rows columns).ret prompt)
        = (List.range rows.toNat).map (fun (i : Nat) =>
            (f_vector.block.drop (i * columns.toNat)).take columns.toNat)
    ∧ ((rowLines (print2DMat (vecToMat2D out0 junk f_vector rows columns).ret
          prompt)).length : Int) = rows := by
  lift rows to ℕ using hrows.le with r
  lift columns to ℕ using hcolumns.le with c
  have hn : f_vector.block.length = r * c := by exact_mod_cast hlen
  have hfit' : ((r * c : Nat) : Int) ≤ INT_MAX := by exact_mod_cast hfit
  have hrun := vecToMat2D_run out0 junk f_vector r c hfit'
  have hcalls := print2DMat_full (vecToMat2D out0 junk f_vector (r : Int) (c : Int)).ret
    prompt r c (by rw [hrun]) (by rw [hrun]) (by rw [hrun]; simp) hfit'
  have hblock : (vecToMat2D out0 junk f_vector (r : Int) (c : Int)).ret.cells.block
      = f_vector.block := by
    rw [hrun]
    simp only
    rw [map_read_range f_vector (r * c) hn.ge, List.take_of_length_le hn.le]
  rw [hblock] at hcalls
  simp only [Int.toNat_ofNat]
  refine ⟨?_, ?_, ?_, ?_⟩
  · rw [hcalls, flatMap_rowLine_eq]
  · rw [hcalls]
    simp only [cellValues]
    rw [cellValues_flatMap_rowLine]
    simp only [cellValues, List.append_nil]
    rw [← List.flatMap_def, flatMap_rows f_vector.block c r hn.ge, List.take_of_length_le hn.le]
  · rw [hcalls]
    simp only [rowLines, rowLinesFrom]
    rw [rowLinesFrom_flatMap_rowLine]
    simp [rowLinesFrom]
  · rw [hcalls]
    simp only [rowLines, rowLinesFrom]
    rw [rowLinesFrom_flatMap_rowLine]
    simp [rowLinesFrom]

/-- Claim C2 as the code has it, at the buffer 1, ..., 6 with 2 rows and 3 columns: row
line 0 prints 1, 2, 3 and row line 1 prints 4, 5, 6. -/
theorem print2DMat_vecToMat2D_row_major_witness :
    ((0 : Int) < 2 ∧ (0 : Int) < 3 ∧ (2 : Int) * 3 ≤ INT_MAX
      ∧ ((exampleBuffer [1, 2, 3, 4, 5, 6]).block.length : Int) = 2 * 3)
    ∧ rowLines (print2DMat (vecToMat2D exampleLocal exampleJunk
        (exampleBuffer [1, 2, 3, 4, 5, 6]) 2 3).ret "") = [[1, 2, 3], [4, 5, 6]]
    ∧ cellValues (print2DMat (vecToMat2D exampleLocal exampleJunk
        (exampleBuffer [1, 2, 3, 4, 5, 6]) 2 3).ret "") = [1, 2, 3, 4, 5, 6] :=
  ⟨by decide,
   (print2DMat_vecToMat2D_row_major exampleLocal exampleJunk
      (exampleBuffer [1, 2, 3, 4, 5, 6]) 2 3 "" (by decide) (by decide) (by decide)
      (by decide)).2.2.1,
   (print2DMat_vecToMat2D_row_major exampleLocal exampleJunk
      (exampleBuffer [1, 2, 3, 4, 5, 6]) 2 3 "" (by decide) (by decide) (by decide)
      (by decide)).2.1⟩

/-- Claim C2 fails on the code: with 65536 rows, 65536 columns and a buffer of exactly
`2^32` floats, all 0, the index `32768*65536 + 0` of row 32768 is the `int` -2147483648:
the float copied and printed first in row line 32768 is the one found at that index,
outside the buffer (2147483648 here), not the buffer's float at position `32768*65536`,
which is 0. -/
theorem print2DMat_vecToMat2D_row_major_counterexample :
    ((0 : Int) < 65536 ∧ (0 : Int) < 65536
      ∧ ((exampleBuffer (List.replicate 4294967296 0)).block.length : Int) = 65536 * 65536)
    ∧ intAdd (intMul 32768 65536) 0 = -2147483648
    ∧ ((rowLines (print2DMat (vecToMat2D exampleLocal exampleJunk
          (exampleBuffer (List.replicate 4294967296 0)) 65536 65536).ret "")).get? 32768).bind
        (fun line => line.get? 0) = some 2147483648
    ∧ (exampleBuffer (List.replicate 4294967296 0)).block.get? (32768 * 65536 + 0)
        = some 0 := by
  have hidx : intAdd (intMul 32768 65536) 0 = -2147483648 := by decide
  have hread := vecToMat2D_read_back exampleLocal exampleJunk
    (exampleBuffer (List.replicate 4294967296 0)) 65536 65536 32768 0 (by decide) (by decide)
  simp only [Nat.cast_ofNat, Nat.cast_zero] at hread
  rw [hidx] at hread
  have hbeyond : (exampleBuffer (List.replicate 4294967296 0)).read (-2147483648)
      = 2147483648 := by
    unfold FloatBuf.read exampleBuffer
    rw [if_neg (by decide)]
    decide
  rw [hbeyond] at hread
  refine ⟨⟨by decide, by decide, ?_⟩, hidx, ?_, ?_⟩
  · unfold exampleBuffer
    simp only [List.length_replicate]
    norm_num
  · rw [rowLines_print2DMat]
    have hrows : (vecToMat2D exampleLocal exampleJunk
        (exampleBuffer (List.replicate 4294967296 0)) 65536 65536).ret.rows.toNat
        = 65536 := rfl
    have hcols : (vecToMat2D exampleLocal exampleJunk
        (exampleBuffer (List.replicate 4294967296 0)) 65536 65536).ret.columns = 65536 := rfl
    rw [hrows, hcols]
    rw [List.get?_eq_getElem?, List.getElem?_map,
      List.getElem?_range (by decide : 32768 < 65536)]
    simp only [Option.map_some', Option.some_bind, Int.toNat_ofNat]
    rw [List.get?_eq_getElem?, List.getElem?_map,
      List.getElem?_range (by decide : 0 < (65536 : Int).toNat)]
    simp only [Option.map_some', Nat.cast_ofNat, Nat.cast_zero, hidx, hread]
  · unfold exampleBuffer
    rw [List.get?_eq_getElem?, List.getElem?_replicate]
    simp

/-- Claim C10: called on the same matrix with the same label, `print2DMat` (matrix passed by
value) and `pprint2DMat` (matrix passed by pointer) make the same `printf` calls, hence
write the same text. -/
theorem print2DMat_eq_pprint2DMat {α : Type} (fmtF : α → String) (m : Mat2D (FloatBuf α))
    (p : String) :
    print2DMat m p = pprint2DMat m p
    ∧ stdoutText fmtF (print2DMat m p) = stdoutText fmtF (pprint2DMat m p) :=
  ⟨rfl, rfl⟩

/-! ## Claims on `cudaMSend2D` -/

/-- Claim C3: whatever the host matrix, the copy flag, the label and the outcomes of the
runtime's `cudaMalloc` and `cudaMemcpy`, the matrix `cudaMSend2D` returns has the rows and
the columns of the host matrix. -/
theorem cudaMSend2D_shape {D α : Type} (rt : CudaRuntime D α) (d_M0 : Mat2D DevPtr) (dev : D)
    (iM : Mat2D (FloatBuf α)) (copy : Bool) (iD : String) :
    (cudaMSend2D rt d_M0 dev iM copy iD).ret.rows = iM.rows
    ∧ (cudaMSend2D rt d_M0 dev iM copy iD).ret.columns = iM.columns := by
  cases copy <;> exact ⟨rfl, rfl⟩

theorem bytes_of_positive (rows columns : Int) (hrows : 0 < rows) (hcolumns : 0 < columns)
    (hfit : rows * columns ≤ INT_MAX) :
    sizeMul (toSizeT (intMul rows columns)) sizeofFloat = (4 * rows * columns).toNat
    ∧ (((4 * rows * columns).toNat : Nat) : Int) = 4 * rows * columns := by
  lift rows to ℕ using hrows.le with r
  lift columns to ℕ using hcolumns.le with c
  have hfit' : ((r * c : Nat) : Int) ≤ INT_MAX := by exact_mod_cast hfit
  have e : (4 : Int) * (r : Int) * (c : Int) = ((r * c * 4 : Nat) : Int) := by
    push_cast; ring
  rw [bytes_of_fits r c hfit', e, Int.toNat_ofNat]
  exact ⟨rfl, rfl⟩

/-- Claim C9, as the code has it: for a host matrix with `rows > 0`, `columns > 0` and
`rows*columns` no more than `INT_MAX`, `cudaMSend2D` first calls `cudaMalloc` once, for
`4*rows*columns` bytes, then prints one allocation line with the label. With the copy
flag set, whatever the allocation gave, it then calls `cudaMemcpy` once, for the same
`4*rows*columns` bytes, from the cells of the host matrix to the handle the allocation
stored, and prints one copy line; with the flag unset nothing follows the allocation
line. The handle returned is the one the allocation stored. -/
theorem cudaMSend2D_events {D α : Type} (rt : CudaRuntime D α) (d_M0 : Mat2D DevPtr)
    (dev : D) (iM : Mat2D (FloatBuf α)) (copy : Bool) (iD : String)
    (hrows : 0 < iM.rows) (hcolumns : 0 < iM.columns)
    (hfit : iM.rows * iM.columns ≤ INT_MAX) :
    (((4 * iM.rows * iM.columns).toNat : Nat) : Int) = 4 * iM.rows * iM.columns
    ∧ (copy = true →
      (cudaMSend2D rt d_M0 dev iM copy iD).events
        = [Event.cudaMalloc (4 * iM.rows * iM.columns).toNat,
           Event.printf (Printf.allocating iD (rt.cudaGetErrorString
             (rt.cudaMalloc dev d_M0.cells (4 * iM.rows * iM.columns).toNat).1)),
           Event.cudaMemcpy
             (rt.cudaMalloc dev d_M0.cells (4 * iM.rows * iM.columns).toNat).2.1
             iM.cells (4 * iM.rows * iM.columns).toNat,
           Event.printf (Printf.copying iD (rt.cudaGetErrorString
             (rt.cudaMemcpy
               (rt.cudaMalloc dev d_M0.cells (4 * iM.rows * iM.columns).toNat).2.2
               (rt.cudaMalloc dev d_M0.cells (4 * iM.rows * iM.columns).toNat).2.1
               iM.cells (4 * iM.rows * iM.columns).toNat).1))])
    ∧ (copy = false →
      (cudaMSend2D rt d_M0 dev iM copy iD).events
        = [Event.cudaMalloc (4 * iM.rows * iM.columns).toNat,
           Event.printf (Printf.allocating iD (rt.cudaGetErrorString
             (rt.cudaMalloc dev d_M0.cells (4 * iM.rows * iM.columns).toNat).1))])
    ∧ (cudaMSend2D rt d_M0 dev iM copy iD).ret.cells
        = (rt.cudaMalloc dev d_M0.cells (4 * iM.rows * iM.columns).toNat).2.1 := by
  obtain ⟨hsize, hcast⟩ := bytes_of_positive iM.rows iM.columns hrows hcolumns hfit
  refine ⟨hcast, ?_⟩
  cases copy
  · refine ⟨fun h => absurd h (by decide), fun _ => ?_, ?_⟩
    · simp only [cudaMSend2D, hsize]
      rfl
    · simp only [cudaMSend2D, hsize]
      rfl
  · refine ⟨fun _ => ?_, fun h => absurd h (by decide), ?_⟩
    · simp only [cudaMSend2D, hsize]
      rfl
    · simp only [cudaMSend2D, hsize]
      rfl

/-- Claim C9 as the code has it, on the 2 x 3 matrix: the events of a run with the copy flag
set, over the runtime that is out of memory. -/
theorem cudaMSend2D_events_witness :
    ((0 : Int) < exampleMatrix.rows ∧ (0 : Int) < exampleMatrix.columns
      ∧ exampleMatrix.rows * exampleMatrix.columns ≤ INT_MAX)
    ∧ (cudaMSend2D (exhaustedRuntime Int) exampleDeviceLocal () exampleMatrix true "m").events
        = [Event.cudaMalloc 24,
           Event.printf (Printf.allocating "m" "out of memory"),
           Event.cudaMemcpy 12345 exampleMatrix.cells 24,
           Event.printf (Printf.copying "m" "invalid argument")] :=
  ⟨by decide,
   (cudaMSend2D_events (exhaustedRuntime Int) exampleDeviceLocal () exampleMatrix true "m"
      (by decide) (by decide) (by decide)).2.1 rfl⟩

/-- Claim C9 fails on the code: for the host matrix of 46341 rows and 46341 columns the
`int` product `rows*columns` is -2147479015, and `cudaMalloc` and `cudaMemcpy` are called
for 18446744065119635556 bytes, not for `4*46341*46341 = 8589953124`; for 65536 rows and
65536 columns they are called for 0 bytes. -/
theorem cudaMSend2D_events_counterexample :
    ((0 : Int) < squareMatrix.rows ∧ (0 : Int) < squareMatrix.columns)
    ∧ intMul squareMatrix.rows squareMatrix.columns = -2147479015
    ∧ (cudaMSend2D (exhaustedRuntime Int) exampleDeviceLocal () squareMatrix true "m").events
        = [Event.cudaMalloc 18446744065119635556,
           Event.printf (Printf.allocating "m" "out of memory"),
           Event.cudaMemcpy 12345 squareMatrix.cells 18446744065119635556,
           Event.printf (Printf.copying "m" "invalid argument")]
    ∧ (18446744065119635556 : Int) ≠ 4 * squareMatrix.rows * squareMatrix.columns
    ∧ (cudaMSend2D (exhaustedRuntime Int) exampleDeviceLocal () wideMatrix false "m").events
        = [Event.cudaMalloc 0,
           Event.printf (Printf.allocating "m" "out of memory")] := by
  refine ⟨by decide, by decide, ?_, by decide, ?_⟩
  · have hsize : sizeMul (toSizeT (intMul squareMatrix.rows squareMatrix.columns)) sizeofFloat
        = 18446744065119635556 := by decide
    simp only [cudaMSend2D, hsize]
    rfl
  · have hsize : sizeMul (toSizeT (intMul wideMatrix.rows wideMatrix.columns)) sizeofFloat
        = 0 := by decide
    simp only [cudaMSend2D, hsize]
    rfl

/-- Claim C6, as the code has it: when `cudaMalloc` reports a failure, or, with the copy
flag set, `cudaMemcpy` does, `cudaMSend2D` still returns a matrix: it has the rows and
columns of the host matrix and, as handle, what the `cudaMalloc` call left in `cells`. The
failure shows only in the lines printed, which carry the runtime's text for each error
code. -/
theorem cudaMSend2D_failure_only_printed {D α : Type} (rt : CudaRuntime D α)
    (d_M0 : Mat2D DevPtr) (dev : D) (iM : Mat2D (FloatBuf α)) (copy : Bool) (iD : String)
    (_hfail : (rt.cudaMalloc dev d_M0.cells
          (sizeMul (toSizeT (intMul iM.rows iM.columns)) sizeofFloat)).1 ≠ cudaSuccess
      ∨ (copy = true
        ∧ (rt.cudaMemcpy
            (rt.cudaMalloc dev d_M0.cells
              (sizeMul (toSizeT (intMul iM.rows iM.columns)) sizeofFloat)).2.2
            (rt.cudaMalloc dev d_M0.cells
              (sizeMul (toSizeT (intMul iM.rows iM.columns)) sizeofFloat)).2.1
            iM.cells (sizeMul (toSizeT (intMul iM.rows iM.columns)) sizeofFloat)).1
          ≠ cudaSuccess)) :
    (cudaMSend2D rt d_M0 dev iM copy iD).ret
        = { rows := iM.rows, columns := iM.columns,
            cells := (rt.cudaMalloc dev d_M0.cells
              (sizeMul (toSizeT (intMul iM.rows iM.columns)) sizeofFloat)).2.1,
            next := d_M0.next }
    ∧ printed (cudaMSend2D rt d_M0 dev iM copy iD).events
        = Printf.allocating iD (rt.cudaGetErrorString
            (rt.cudaMalloc dev d_M0.cells
              (sizeMul (toSizeT (intMul iM.rows iM.columns)) sizeofFloat)).1)
          :: (if copy = true then
                [Printf.copying iD (rt.cudaGetErrorString
                  (rt.cudaMemcpy
                    (rt.cudaMalloc dev d_M0.cells
                      (sizeMul (toSizeT (intMul iM.rows iM.columns)) sizeofFloat)).2.2
                    (rt.cudaMalloc dev d_M0.cells
                      (sizeMul (toSizeT (intMul iM.rows iM.columns)) sizeofFloat)).2.1
                    iM.cells
                    (sizeMul (toSizeT (intMul iM.rows iM.columns)) sizeofFloat)).1)]
              else []) := by
  cases copy <;> exact ⟨rfl, rfl⟩

/-- Claim C6 as the code has it, on the 2 x 3 matrix over the runtime that is out of
memory. -/
theorem cudaMSend2D_failure_only_printed_witness :
    (((exhaustedRuntime Int).cudaMalloc () exampleDeviceLocal.cells
        (sizeMul (toSizeT (intMul exampleMatrix.rows exampleMatrix.columns)) sizeofFloat)).1
      ≠ cudaSuccess)
    ∧ (cudaMSend2D (exhaustedRuntime Int) exampleDeviceLocal () exampleMatrix false "m").ret
        = { rows := 2, columns := 3, cells := 12345, next := 7 } :=
  ⟨by decide,
   (cudaMSend2D_failure_only_printed (exhaustedRuntime Int) exampleDeviceLocal ()
      exampleMatrix false "m" (Or.inl (by decide))).1⟩

/-- Claim C6 fails on the code: over a runtime whose `cudaMalloc` fails with
`cudaErrorMemoryAllocation` and whose `cudaMemcpy` fails, `cudaMSend2D` with the copy flag
set returns a 2 x 3 matrix whose handle is the indeterminate value 12345 the local started
with, and the two failures are only printed. -/
theorem cudaMSend2D_failure_counterexample :
    ((exhaustedRuntime Int).cudaMalloc () exampleDeviceLocal.cells 24).1
        = cudaErrorMemoryAllocation
    ∧ (cudaMSend2D (exhaustedRuntime Int) exampleDeviceLocal () exampleMatrix true
        "m").ret.rows = 2
    ∧ (cudaMSend2D (exhaustedRuntime Int) exampleDeviceLocal () exampleMatrix true
        "m").ret.columns = 3
    ∧ (cudaMSend2D (exhaustedRuntime Int) exampleDeviceLocal () exampleMatrix true
        "m").ret.cells = 12345
    ∧ stdoutText (fun (v : Int) => toString v)
        (printed (cudaMSend2D (exhaustedRuntime Int) exampleDeviceLocal () exampleMatrix true
          "m").events)
        = "Allocating memory for m on GPU: out of memory\nCopying m to GPU: invalid argument\n" := by
  refine ⟨rfl, rfl, rfl, rfl, ?_⟩
  decide

/-- Claim C4, as the code has it: over the accelerator memory `deviceRuntime`, in which
allocation and copy succeed, for a host matrix with `rows > 0`, `columns > 0`,
`rows*columns` no more than `INT_MAX` and `rows*columns` cells, after `cudaMSend2D` with
the copy flag set the region the returned handle names holds exactly the cells of the host
matrix, position by position, and a read-back of `rows*columns` floats from that handle
gives these cells; both lines printed report `no error`. -/
theorem cudaMSend2D_copy_fidelity {α : Type} (junk : Int → α) (d_M0 : Mat2D DevPtr)
    (mem : DeviceMem α) (iM : Mat2D (FloatBuf α)) (iD : String)
    (hrows : 0 < iM.rows) (hcolumns : 0 < iM.columns)
    (hfit : iM.rows * iM.columns ≤ INT_MAX)
    (hcells : (iM.cells.block.length : Int) = iM.rows * iM.columns) :
    regionOf (cudaMSend2D (deviceRuntime junk) d_M0 mem iM true iD).device
        (cudaMSend2D (deviceRuntime junk) d_M0 mem iM true iD).ret.cells
      = some iM.cells.block
    ∧ readBack (cudaMSend2D (deviceRuntime junk) d_M0 mem iM true iD).device
        (cudaMSend2D (deviceRuntime junk) d_M0 mem iM true iD).ret.cells
        (iM.rows * iM.columns).toNat
      = some iM.cells.block
    ∧ printed (cudaMSend2D (deviceRuntime junk) d_M0 mem iM true iD).events
      = [Printf.allocating iD "no error", Printf.copying iD "no error"] := by
  obtain ⟨rows, columns, cells, next⟩ := iM
  simp only at hrows hcolumns hcells hfit
  lift rows to ℕ using hrows.le with r
  lift columns to ℕ using hcolumns.le with c
  have hlen : cells.block.length = r * c := by exact_mod_cast hcells
  have hfit' : ((r * c : Nat) : Int) ≤ INT_MAX := by exact_mod_cast hfit
  have hsize : sizeMul (toSizeT (intMul (r : Int) (c : Int))) sizeofFloat
      = cells.block.length * 4 := by
    rw [bytes_of_fits r c hfit', hlen]
  have hn : cells.block.length * 4 / sizeofFloat = cells.block.length := by
    simp [sizeofFloat]
  have hn2 : ((r : Int) * (c : Int)).toNat = cells.block.length := by
    rw [hlen, ← Nat.cast_mul, Int.toNat_ofNat]
  have hget : (mem ++ [(List.range cells.block.length).map
      (fun (k : Nat) => junk (k : Int))])[mem.length]?
      = some ((List.range cells.block.length).map (fun (k : Nat) => junk (k : Int))) := by
    simp
  have hrun : cudaMSend2D (deviceRuntime junk) d_M0 mem
      { rows := (r : Int), columns := (c : Int), cells := cells, next := next } true iD
      = { ret := { rows := (r : Int), columns := (c : Int), cells := mem.length + 1,
                   next := d_M0.next }
          device := mem ++ [cells.block]
          events := [Event.cudaMalloc (cells.block.length * 4),
            Event.printf (Printf.allocating iD "no error"),
            Event.cudaMemcpy (mem.length + 1) cells (cells.block.length * 4),
            Event.printf (Printf.copying iD "no error")] } := by
    simp only [cudaMSend2D, hsize, deviceRuntime, hn, hget, if_true, List.length_map,
      List.length_range, le_refl, List.drop_length, List.append_nil,
      map_read_range cells _ le_rfl, List.take_length]
    simp [errorString, cudaSuccess]
  rw [hrun, hn2]
  simp [regionOf, readBack, printed]

/-- Claim C4 as the code has it, on the 2 x 3 matrix with the cells 1, ..., 6: read back
from the accelerator, they are 1, ..., 6. -/
theorem cudaMSend2D_copy_fidelity_witness :
    ((0 : Int) < exampleMatrix.rows ∧ (0 : Int) < exampleMatrix.columns
      ∧ exampleMatrix.rows * exampleMatrix.columns ≤ INT_MAX
      ∧ (exampleMatrix.cells.block.length : Int) = exampleMatrix.rows * exampleMatrix.columns)
    ∧ readBack (cudaMSend2D (deviceRuntime exampleJunk) exampleDeviceLocal [[5, 5]]
          exampleMatrix true "m").device
        (cudaMSend2D (deviceRuntime exampleJunk) exampleDeviceLocal [[5, 5]]
          exampleMatrix true "m").ret.cells 6
      = some [1, 2, 3, 4, 5, 6] :=
  ⟨by decide,
   (cudaMSend2D_copy_fidelity exampleJunk exampleDeviceLocal [[5, 5]] exampleMatrix "m"
      (by decide) (by decide) (by decide) (by decide)).2.1⟩

/-- Claim C4 fails on the code: for the host matrix of 65536 rows and 65536 columns, with
its `2^32` cells, the `int` product `rows*columns` is 0; `cudaMalloc` and `cudaMemcpy` are
called for 0 bytes, the region the returned handle names holds no float, and a read-back
of `65536*65536` floats from it is refused. -/
theorem cudaMSend2D_copy_fidelity_counterexample :
    ((0 : Int) < wideMatrix.rows ∧ (0 : Int) < wideMatrix.columns
      ∧ (wideMatrix.cells.block.length : Int) = wideMatrix.rows * wideMatrix.columns)
    ∧ regionOf (cudaMSend2D (deviceRuntime exampleJunk) exampleDeviceLocal [[5, 5]]
          wideMatrix true "m").device
        (cudaMSend2D (deviceRuntime exampleJunk) exampleDeviceLocal [[5, 5]]
          wideMatrix true "m").ret.cells
      = some []
    ∧ wideMatrix.cells.block ≠ []
    ∧ readBack (cudaMSend2D (deviceRuntime exampleJunk) exampleDeviceLocal [[5, 5]]
          wideMatrix true "m").device
        (cudaMSend2D (deviceRuntime exampleJunk) exampleDeviceLocal [[5, 5]]
          wideMatrix true "m").ret.cells
        (wideMatrix.rows * wideMatrix.columns).toNat
      = none := by
  have hsize : sizeMul (toSizeT (intMul wideMatrix.rows wideMatrix.columns)) sizeofFloat
      = 0 := by decide
  have hrun : cudaMSend2D (deviceRuntime exampleJunk) exampleDeviceLocal [[5, 5]]
      wideMatrix true "m"
      = { ret := { rows := 65536, columns := 65536, cells := 2, next := 7 }
          device := [[5, 5], []]
          events := [Event.cudaMalloc 0,
            Event.printf (Printf.allocating "m" "no error"),
            Event.cudaMemcpy 2 wideMatrix.cells 0,
            Event.printf (Printf.copying "m" "no error")] } := by
    simp only [cudaMSend2D, hsize]
    rfl
  rw [hrun]
  refine ⟨⟨by decide, by decide, ?_⟩, rfl, ?_, ?_⟩
  · unfold wideMatrix exampleBuffer
    simp only [List.length_replicate]
    norm_num
  · intro h
    have := congrArg List.length h
    unfold wideMatrix exampleBuffer at this
    simp only [List.length_replicate, List.length_nil] at this
    exact absurd this (by decide)
  · have htoNat : (wideMatrix.rows * wideMatrix.columns).toNat = 4294967296 := by decide
    rw [htoNat]
    decide

end NodeSet
